import Mathlib

/-!
Verification of the console-menu library (src/lib.rs).

This file shallowly embeds the menu data model, the construction code
(Menu::new), the pagination arithmetic, the navigation state machine
(Menu::run_navigation and Menu::set_page), and the observable terminal
effects of a display session (Menu::show, Menu::exit) as pure Lean
functions, and proves properties of them.

Terminal input is modelled as a finite list of key events; terminal
output is modelled as a trace of abstract terminal operations.
Machine integers are modelled as Nat, with an explicit modulus where
the source performs fixed-width arithmetic that can wrap.
-/

set_option autoImplicit false

namespace ConsoleMenu

/-- MenuOption from the source: a label together with a boxed action.
The action is opaque side-effecting code; invocations are recorded in the
event trace by the index of the option whose action fires. -/
structure MenuOption where
  label : String
deriving Repr, DecidableEq

/-- MenuProps from the source: configuration passed to Menu construction. -/
structure MenuProps where
  title : String
  message : String
  exit_on_action : Bool
  bg_color : Nat
  fg_color : Nat
  title_color : Option Nat
  selected_color : Option Nat
  msg_color : Option Nat
deriving Repr, DecidableEq

/-- The Default impl of MenuProps from the source. -/
def MenuProps.default : MenuProps :=
  ⟨"", "", true, 8, 15, none, none, some 7⟩

/-- The Menu struct from the source (all fields). -/
structure Menu where
  options : List MenuOption
  title : Option String
  message : Option String
  exit_on_action : Bool
  bg_color : Nat
  fg_color : Nat
  title_color : Nat
  selected_color : Nat
  msg_color : Nat
  selected_option : Nat
  selected_page : Nat
  options_per_page : Nat
  num_pages : Nat
  page_start : Nat
  page_end : Nat
  max_width : Nat
deriving Repr, DecidableEq

/-- The free function clamp from the source (src/lib.rs lines 376-379). -/
def clamp (num mn mx : Nat) : Nat :=
  let out := if num < mn then mn else num
  if out > mx then mx else out

/-- The expression at src/lib.rs line 181: the terminal row count (a u16,
so below 65536) minus 6, computed in u16 arithmetic. In a release build a
u16 subtraction wraps modulo 65536 when the row count is below 6; this
definition uses those wrapping semantics. (In a debug build the same
subtraction aborts the program, so in neither build does a row count
below 6 ever yield a small options-per-page value.) -/
def rows_minus_6 (term_rows : Nat) : Nat :=
  (term_rows + 65536 - 6) % 65536

/-- Options-per-page computation at src/lib.rs lines 181-182. -/
def compute_options_per_page (term_rows option_count : Nat) : Nat :=
  clamp (rows_minus_6 term_rows) 1 option_count

/-- Page-count computation at src/lib.rs line 183. -/
def compute_page_count (option_count options_per_page : Nat) : Nat :=
  ((option_count - 1) / options_per_page) + 1

/-- The max-width fold at src/lib.rs lines 185-194. -/
def compute_max_width (options : List MenuOption) (title message : String) : Nat :=
  let mw := options.foldl
    (fun mx o => if o.label.length > mx then o.label.length else mx) 0
  let mw := if title.length > mw then title.length else mw
  if message.length > mw then message.length else mw

/-- Menu::set_page (src/lib.rs lines 278-287). -/
def Menu.set_page (m : Menu) (page : Nat) : Menu :=
  let page_start := page * m.options_per_page
  let page_end :=
    if m.options.length > page_start + m.options_per_page then
      page_start + m.options_per_page - 1
    else
      m.options.length - 1
  { m with
      selected_page := page
      page_start := page_start
      selected_option := page_start
      page_end := page_end }

/-- The body of Menu::new after the emptiness assertion
(src/lib.rs lines 181-215). term_rows is the row count reported by the
terminal driver at construction time. Note line 199 of the source: the
message field is populated, when the message text of the props is
non-empty, with the TITLE text of the props. -/
def mk_menu_base (options : List MenuOption) (props : MenuProps) (term_rows : Nat) : Menu :=
  let options_per_page := compute_options_per_page term_rows options.length
  let num_pages := compute_page_count options.length options_per_page
  { options := options
    title := if props.title.isEmpty then none else some props.title
    message := if props.message.isEmpty then none else some props.title
    exit_on_action := props.exit_on_action
    bg_color := props.bg_color
    fg_color := props.fg_color
    title_color := props.title_color.getD props.fg_color
    selected_color := props.selected_color.getD props.fg_color
    msg_color := props.msg_color.getD props.fg_color
    selected_option := 0
    selected_page := 0
    options_per_page := options_per_page
    num_pages := num_pages
    page_start := 0
    page_end := 0
    max_width := compute_max_width options props.title props.message }

/-- The menu value returned by Menu::new: the record above followed by the
set_page(0) call at src/lib.rs line 214. -/
def mk_menu (options : List MenuOption) (props : MenuProps) (term_rows : Nat) : Menu :=
  (mk_menu_base options props term_rows).set_page 0

/-- Menu::new (src/lib.rs lines 178-216): asserts the option list is
non-empty, then builds the menu. The assertion failure is modelled as
none. -/
def Menu.new (options : List MenuOption) (props : MenuProps) (term_rows : Nat) :
    Option Menu :=
  if options.isEmpty then none else some (mk_menu options props term_rows)

/-- Key events delivered by the terminal driver, as classified by the
match in Menu::run_navigation. -/
inductive Key where
  | arrowUp
  | arrowDown
  | arrowLeft
  | arrowRight
  | enter
  | escape
  | backspace
  | char (c : Char)
  | otherKey
deriving Repr, DecidableEq

/-- Keys matched by the ArrowUp arm (src/lib.rs line 234). -/
def Key.isUp : Key → Bool
  | Key.arrowUp => true
  | Key.char c => c == 'k'
  | _ => false

/-- Keys matched by the ArrowDown arm (src/lib.rs line 242). -/
def Key.isDown : Key → Bool
  | Key.arrowDown => true
  | Key.char c => c == 'j'
  | _ => false

/-- Keys matched by the ArrowLeft arm (src/lib.rs line 249). -/
def Key.isLeft : Key → Bool
  | Key.arrowLeft => true
  | Key.char c => c == 'h' || c == 'b'
  | _ => false

/-- Keys matched by the ArrowRight arm (src/lib.rs line 254). -/
def Key.isRight : Key → Bool
  | Key.arrowRight => true
  | Key.char c => c == 'l' || c == 'w'
  | _ => false

/-- Keys matched by the Escape arm (src/lib.rs line 259). -/
def Key.isExitKey : Key → Bool
  | Key.escape => true
  | Key.backspace => true
  | Key.char c => c == 'q'
  | _ => false

/-- The Enter key (src/lib.rs line 263). -/
def Key.isEnter : Key → Bool
  | Key.enter => true
  | _ => false

/-- The navigation-state part of one iteration of the match in
Menu::run_navigation (src/lib.rs lines 233-272): the four movement arms.
Exit, Enter and unrecognized keys leave the navigation state unchanged. -/
def Menu.nav_step (m : Menu) (k : Key) : Menu :=
  if k.isUp then
    if m.selected_option ≠ m.page_start then
      { m with selected_option := m.selected_option - 1 }
    else if m.selected_page ≠ 0 then
      let m2 := m.set_page (m.selected_page - 1)
      { m2 with selected_option := m2.page_end }
    else m
  else if k.isDown then
    if m.selected_option < m.page_end then
      { m with selected_option := m.selected_option + 1 }
    else if m.selected_page < m.num_pages - 1 then
      m.set_page (m.selected_page + 1)
    else m
  else if k.isLeft then
    if m.selected_page ≠ 0 then m.set_page (m.selected_page - 1) else m
  else if k.isRight then
    if m.selected_page < m.num_pages - 1 then
      m.set_page (m.selected_page + 1)
    else m
  else m

/-- The navigation state reached from m after a list of key events. -/
def Menu.reach (m : Menu) (ks : List Key) : Menu :=
  ks.foldl Menu.nav_step m

/-- Observable terminal operations emitted by a display session.
A draw records the page and option indices it renders. -/
inductive Ev where
  | hideCursor
  | padLines (n : Nat)
  | draw (page opt : Nat)
  | clearScreen
  | showCursor
  | flush
  | invoke (i : Nat)
deriving Repr, DecidableEq

/-- Menu::exit (src/lib.rs lines 356-361): clear the screen, show the
cursor, flush. -/
def exit_ops : List Ev :=
  [Ev.clearScreen, Ev.showCursor, Ev.flush]

/-- Menu::run_navigation (src/lib.rs lines 229-276) on a finite list of
pending key events. Returns the emitted terminal operations, the final
menu state, and whether the loop terminated by break (true) or is still
blocked reading the next key when the event list runs out (false). -/
def run_navigation : Menu → List Key → List Ev × Menu × Bool
  | m, [] => ([], m, false)
  | m, k :: ks =>
    if k.isExitKey then
      (exit_ops, m, true)
    else if k.isEnter then
      if m.exit_on_action then
        (exit_ops ++ [Ev.invoke m.selected_option], m, true)
      else
        let r := run_navigation m ks
        (Ev.invoke m.selected_option ::
          Ev.draw m.selected_page m.selected_option :: r.1, r.2)
    else
      let m2 := m.nav_step k
      let r := run_navigation m2 ks
      (Ev.draw m2.selected_page m2.selected_option :: r.1, r.2)

/-- Menu::show (src/lib.rs lines 218-227): hide the cursor, pad the
screen with term_height - 1 newlines, draw the current state, then run
the navigation loop. term_height is the row count reported by the
terminal driver at the time of this call; note that the layout and
navigation fields of the menu are not touched before the loop runs. -/
def Menu.show (m : Menu) (term_height : Nat) (keys : List Key) :
    List Ev × Menu × Bool :=
  let r := run_navigation m keys
  (Ev.hideCursor :: Ev.padLines (term_height - 1) ::
    Ev.draw m.selected_page m.selected_option :: r.1, r.2)

/-- Indices of the actions invoked along a trace, in order. -/
def invokes (evs : List Ev) : List Nat :=
  evs.filterMap (fun e => match e with | Ev.invoke i => some i | _ => none)

/-- The per-event transition behavior claimed for the navigation state
machine, for a given state: the effects of Up, Down, Left and Right in
each guard case, and the four boundary no-op cases. -/
def nav_transition_spec (m : Menu) : Prop :=
  (∀ k, k.isUp = true → m.page_start < m.selected_option →
    (m.nav_step k).selected_option = m.selected_option - 1 ∧
    (m.nav_step k).selected_page = m.selected_page) ∧
  (∀ k, k.isUp = true → m.selected_option = m.page_start →
      0 < m.selected_page →
    (m.nav_step k).selected_page = m.selected_page - 1 ∧
    (m.nav_step k).selected_option = (m.nav_step k).page_end) ∧
  (∀ k, k.isDown = true → m.selected_option < m.page_end →
    (m.nav_step k).selected_option = m.selected_option + 1 ∧
    (m.nav_step k).selected_page = m.selected_page) ∧
  (∀ k, k.isDown = true → m.selected_option = m.page_end →
      m.selected_page < m.num_pages - 1 →
    (m.nav_step k).selected_page = m.selected_page + 1 ∧
    (m.nav_step k).selected_option = (m.nav_step k).page_start) ∧
  (∀ k, k.isLeft = true → 0 < m.selected_page →
    (m.nav_step k).selected_page = m.selected_page - 1 ∧
    (m.nav_step k).selected_option = (m.nav_step k).page_start) ∧
  (∀ k, k.isRight = true → m.selected_page < m.num_pages - 1 →
    (m.nav_step k).selected_page = m.selected_page + 1 ∧
    (m.nav_step k).selected_option = (m.nav_step k).page_start) ∧
  (∀ k, k.isUp = true → m.selected_page = 0 → m.selected_option = 0 →
    m.nav_step k = m) ∧
  (∀ k, k.isDown = true → m.selected_page = m.num_pages - 1 →
      m.selected_option = m.page_end →
    m.nav_step k = m) ∧
  (∀ k, k.isLeft = true → m.selected_page = 0 → m.nav_step k = m) ∧
  (∀ k, k.isRight = true → m.selected_page = m.num_pages - 1 →
    m.nav_step k = m)

/- Concrete fixtures used by witnesses and counterexamples. -/

def opts2 : List MenuOption := [⟨"a"⟩, ⟨"b"⟩]

def opts3 : List MenuOption := [⟨"one"⟩, ⟨"two"⟩, ⟨"three"⟩]

def opts10 : List MenuOption :=
  [⟨"0"⟩, ⟨"1"⟩, ⟨"2"⟩, ⟨"3"⟩, ⟨"4"⟩, ⟨"5"⟩, ⟨"6"⟩, ⟨"7"⟩, ⟨"8"⟩, ⟨"9"⟩]

/-- A configuration with a title, a footer message, and exit_on_action
false. -/
def props_tm : MenuProps := ⟨"Title", "hello", false, 8, 15, none, none, some 7⟩

/-- The menu state left behind by a first display session: three options
on a seven-row terminal (one option per page, three pages), the user
pressing Right once and then Escape. -/
def session1_menu : Menu :=
  (Menu.show (mk_menu opts3 MenuProps.default 7) 7
    [Key.arrowRight, Key.escape]).2.1

/-- Facts about the layout fields established by construction: at least
one option, options-per-page between 1 and the option count, and the
page count given by the ceiling-division formula of line 183. -/
def Menu.layout_inv (m : Menu) : Prop :=
  1 ≤ m.options.length ∧
  1 ≤ m.options_per_page ∧
  m.options_per_page ≤ m.options.length ∧
  m.num_pages = ((m.options.length - 1) / m.options_per_page) + 1

/-- The navigation-state invariant: the page index is in range, the page
bounds are the ones set_page computes for it, and the selection lies
within the page bounds. -/
def Menu.nav_inv (m : Menu) : Prop :=
  m.selected_page < m.num_pages ∧
  m.page_start = m.selected_page * m.options_per_page ∧
  (m.page_end =
    if m.options.length > m.page_start + m.options_per_page then
      m.page_start + m.options_per_page - 1
    else
      m.options.length - 1) ∧
  m.page_start ≤ m.selected_option ∧
  m.selected_option ≤ m.page_end

theorem clamp_bounds {num mn mx : Nat} (h : mn ≤ mx) :
    mn ≤ clamp num mn mx ∧ clamp num mn mx ≤ mx := by
  simp only [clamp]
  repeat' split
  all_goals omega

/-- Unfolding lemma for the layout facts. -/
theorem layout_inv_def (m : Menu) :
    m.layout_inv ↔
      (1 ≤ m.options.length ∧
       1 ≤ m.options_per_page ∧
       m.options_per_page ≤ m.options.length ∧
       m.num_pages = ((m.options.length - 1) / m.options_per_page) + 1) :=
  Iff.rfl

/-- Unfolding lemma for the navigation invariant. -/
theorem nav_inv_def (m : Menu) :
    m.nav_inv ↔
      (m.selected_page < m.num_pages ∧
       m.page_start = m.selected_page * m.options_per_page ∧
       (m.page_end =
         if m.options.length > m.page_start + m.options_per_page then
           m.page_start + m.options_per_page - 1
         else
           m.options.length - 1) ∧
       m.page_start ≤ m.selected_option ∧
       m.selected_option ≤ m.page_end) :=
  Iff.rfl

@[simp] theorem set_page_options (m : Menu) (p : Nat) :
    (m.set_page p).options = m.options := rfl

@[simp] theorem set_page_opp (m : Menu) (p : Nat) :
    (m.set_page p).options_per_page = m.options_per_page := rfl

@[simp] theorem set_page_num_pages (m : Menu) (p : Nat) :
    (m.set_page p).num_pages = m.num_pages := rfl

@[simp] theorem set_page_exit_on_action (m : Menu) (p : Nat) :
    (m.set_page p).exit_on_action = m.exit_on_action := rfl

@[simp] theorem set_page_selected_page (m : Menu) (p : Nat) :
    (m.set_page p).selected_page = p := rfl

@[simp] theorem set_page_page_start (m : Menu) (p : Nat) :
    (m.set_page p).page_start = p * m.options_per_page := rfl

@[simp] theorem set_page_selected_option (m : Menu) (p : Nat) :
    (m.set_page p).selected_option = p * m.options_per_page := rfl

@[simp] theorem set_page_title_color (m : Menu) (p : Nat) :
    (m.set_page p).title_color = m.title_color := rfl

@[simp] theorem set_page_selected_color (m : Menu) (p : Nat) :
    (m.set_page p).selected_color = m.selected_color := rfl

@[simp] theorem set_page_msg_color (m : Menu) (p : Nat) :
    (m.set_page p).msg_color = m.msg_color := rfl

@[simp] theorem set_page_message (m : Menu) (p : Nat) :
    (m.set_page p).message = m.message := rfl

@[simp] theorem set_page_title (m : Menu) (p : Nat) :
    (m.set_page p).title = m.title := rfl

theorem set_page_layout_inv (m : Menu) (p : Nat) (h : m.layout_inv) :
    (m.set_page p).layout_inv := by
  rw [layout_inv_def] at h ⊢
  simpa using h

theorem nav_step_options (m : Menu) (k : Key) :
    (m.nav_step k).options = m.options := by
  unfold Menu.nav_step
  repeat' split
  all_goals rfl

theorem nav_step_opp (m : Menu) (k : Key) :
    (m.nav_step k).options_per_page = m.options_per_page := by
  unfold Menu.nav_step
  repeat' split
  all_goals rfl

theorem nav_step_num_pages (m : Menu) (k : Key) :
    (m.nav_step k).num_pages = m.num_pages := by
  unfold Menu.nav_step
  repeat' split
  all_goals rfl

theorem nav_step_layout_inv (m : Menu) (k : Key) (h : m.layout_inv) :
    (m.nav_step k).layout_inv := by
  rw [layout_inv_def] at h ⊢
  rw [nav_step_options, nav_step_opp, nav_step_num_pages]
  exact h

/-- Page starts of in-range pages stay within the option list. -/
theorem page_start_le (m : Menu) (p : Nat) (hL : m.layout_inv)
    (hp : p < m.num_pages) : p * m.options_per_page ≤ m.options.length - 1 := by
  rw [layout_inv_def] at hL
  obtain ⟨hn, hopp, hle, hnp⟩ := hL
  have hp2 : p ≤ (m.options.length - 1) / m.options_per_page := by omega
  calc p * m.options_per_page
      ≤ ((m.options.length - 1) / m.options_per_page) * m.options_per_page :=
        Nat.mul_le_mul_right _ hp2
    _ ≤ m.options.length - 1 := Nat.div_mul_le_self _ _

/-- set_page establishes the navigation invariant for any in-range page. -/
theorem set_page_nav_inv (m : Menu) (p : Nat) (hL : m.layout_inv)
    (hp : p < m.num_pages) : (m.set_page p).nav_inv := by
  have hps := page_start_le m p hL hp
  rw [layout_inv_def] at hL
  obtain ⟨hn, hopp, hle, hnp⟩ := hL
  rw [nav_inv_def]
  refine ⟨hp, rfl, rfl, Nat.le_refl _, ?_⟩
  simp only [Menu.set_page]
  split <;> omega

theorem nav_inv_bounds (m : Menu) (hL : m.layout_inv) (hN : m.nav_inv) :
    m.page_start ≤ m.page_end ∧ m.page_end ≤ m.options.length - 1 ∧
    m.page_end ≤ m.page_start + m.options_per_page - 1 := by
  rw [nav_inv_def] at hN
  obtain ⟨hp, hps, hpe, h1, h2⟩ := hN
  have hb := page_start_le m m.selected_page hL hp
  rw [layout_inv_def] at hL
  obtain ⟨hn, hopp, hle, hnp⟩ := hL
  rw [hpe]
  split <;> omega

/-- Updating only the selected option within the current page bounds
preserves the navigation invariant. -/
theorem nav_inv_set_option (m : Menu) (so : Nat) (hN : m.nav_inv)
    (h1 : m.page_start ≤ so) (h2 : so ≤ m.page_end) :
    Menu.nav_inv { m with selected_option := so } := by
  rw [nav_inv_def] at hN ⊢
  obtain ⟨hp, hps, hpe, _, _⟩ := hN
  exact ⟨hp, hps, hpe, h1, h2⟩

/-- One navigation step preserves the navigation invariant. -/
theorem nav_step_nav_inv (m : Menu) (k : Key) (hL : m.layout_inv)
    (hN : m.nav_inv) : (m.nav_step k).nav_inv := by
  have hb := nav_inv_bounds m hL hN
  have hN2 := hN
  rw [nav_inv_def] at hN2
  obtain ⟨hp, hps, hpe, h1, h2⟩ := hN2
  have hL2 := hL
  rw [layout_inv_def] at hL2
  obtain ⟨hn, hopp, hle, hnp⟩ := hL2
  unfold Menu.nav_step
  split
  · -- Up arm
    split
    · exact nav_inv_set_option m _ hN (by omega) (by omega)
    · split
      · -- move to previous page, select its last option
        have hprev : m.selected_page - 1 < m.num_pages := by omega
        have hinv := set_page_nav_inv m (m.selected_page - 1) hL hprev
        have hb2 := nav_inv_bounds (m.set_page (m.selected_page - 1))
          (set_page_layout_inv m _ hL) hinv
        exact nav_inv_set_option _ _ hinv hb2.1 (Nat.le_refl _)
      · exact hN
  · split
    · -- Down arm
      split
      · exact nav_inv_set_option m _ hN (by omega) (by omega)
      · split
        · exact set_page_nav_inv m _ hL (by omega)
        · exact hN
    · split
      · -- Left arm
        split
        · exact set_page_nav_inv m _ hL (by omega)
        · exact hN
      · split
        · -- Right arm
          split
          · exact set_page_nav_inv m _ hL (by omega)
          · exact hN
        · exact hN

@[simp] theorem mk_menu_base_options (options : List MenuOption)
    (props : MenuProps) (r : Nat) :
    (mk_menu_base options props r).options = options := by
  simp only [mk_menu_base]

@[simp] theorem mk_menu_base_opp (options : List MenuOption)
    (props : MenuProps) (r : Nat) :
    (mk_menu_base options props r).options_per_page =
      compute_options_per_page r options.length := by
  simp only [mk_menu_base]

@[simp] theorem mk_menu_base_num_pages (options : List MenuOption)
    (props : MenuProps) (r : Nat) :
    (mk_menu_base options props r).num_pages =
      compute_page_count options.length
        (compute_options_per_page r options.length) := by
  simp only [mk_menu_base]

@[simp] theorem mk_menu_base_title_color (options : List MenuOption)
    (props : MenuProps) (r : Nat) :
    (mk_menu_base options props r).title_color =
      props.title_color.getD props.fg_color := by
  simp only [mk_menu_base]

@[simp] theorem mk_menu_base_selected_color (options : List MenuOption)
    (props : MenuProps) (r : Nat) :
    (mk_menu_base options props r).selected_color =
      props.selected_color.getD props.fg_color := by
  simp only [mk_menu_base]

@[simp] theorem mk_menu_base_msg_color (options : List MenuOption)
    (props : MenuProps) (r : Nat) :
    (mk_menu_base options props r).msg_color =
      props.msg_color.getD props.fg_color := by
  simp only [mk_menu_base]

@[simp] theorem mk_menu_base_message (options : List MenuOption)
    (props : MenuProps) (r : Nat) :
    (mk_menu_base options props r).message =
      (if props.message.isEmpty then none else some props.title) := by
  simp only [mk_menu_base]

/-- The base record satisfies the layout facts. -/
theorem mk_menu_base_layout_inv (options : List MenuOption) (props : MenuProps)
    (r : Nat) (h : options ≠ []) : (mk_menu_base options props r).layout_inv := by
  have hn : 1 ≤ options.length := List.length_pos.mpr h
  have hcl := @clamp_bounds (rows_minus_6 r) 1 options.length hn
  rw [layout_inv_def, mk_menu_base_options, mk_menu_base_opp,
    mk_menu_base_num_pages]
  exact ⟨hn, hcl.1, hcl.2, rfl⟩

/-- Construction establishes the layout facts. -/
theorem mk_menu_layout_inv (options : List MenuOption) (props : MenuProps)
    (r : Nat) (h : options ≠ []) : (mk_menu options props r).layout_inv :=
  set_page_layout_inv _ 0 (mk_menu_base_layout_inv options props r h)

/-- Construction establishes the navigation invariant. -/
theorem mk_menu_nav_inv (options : List MenuOption) (props : MenuProps)
    (r : Nat) (h : options ≠ []) : (mk_menu options props r).nav_inv := by
  refine set_page_nav_inv _ 0 (mk_menu_base_layout_inv options props r h) ?_
  have hL := mk_menu_base_layout_inv options props r h
  rw [layout_inv_def] at hL
  obtain ⟨-, -, -, hnp⟩ := hL
  rw [hnp]
  exact Nat.succ_pos _

theorem reach_layout_inv (m : Menu) (ks : List Key) (h : m.layout_inv) :
    (m.reach ks).layout_inv := by
  induction ks generalizing m with
  | nil => exact h
  | cons k ks ih => exact ih _ (nav_step_layout_inv m k h)

theorem reach_inv (m : Menu) (ks : List Key) (hL : m.layout_inv)
    (hN : m.nav_inv) : (m.reach ks).layout_inv ∧ (m.reach ks).nav_inv := by
  induction ks generalizing m with
  | nil => exact ⟨hL, hN⟩
  | cons k ks ih =>
      exact ih _ (nav_step_layout_inv m k hL) (nav_step_nav_inv m k hL hN)

theorem mk_menu_opp (options : List MenuOption) (props : MenuProps) (r : Nat) :
    (mk_menu options props r).options_per_page =
      compute_options_per_page r options.length := by
  simp [mk_menu]

theorem mk_menu_num_pages (options : List MenuOption) (props : MenuProps)
    (r : Nat) :
    (mk_menu options props r).num_pages =
      compute_page_count options.length
        (compute_options_per_page r options.length) := by
  simp [mk_menu]

/-- For terminal row counts in the u16 range and at least 6, the wrapping
subtraction agrees with the truncated one. -/
theorem rows_minus_6_of_ge (r : Nat) (h6 : 6 ≤ r) (hu : r < 65536) :
    rows_minus_6 r = r - 6 := by
  unfold rows_minus_6
  omega

/-- C1: the spec says the configured footer message text is stored as the
message of the menu. The source (line 199) tests the message text for
emptiness but then stores the TITLE text: with title "Title" and message
"hello" the stored message is some "Title", not some "hello". The stores-
nothing-when-empty half does hold (third conjunct). This contradicts the
doc comment on the message field of MenuProps, which says the message is
what is displayed below the option list. -/
theorem C1_message_field_holds_title_text :
    (mk_menu [⟨"opt"⟩] props_tm 20).message = some "Title" ∧
    (mk_menu [⟨"opt"⟩] props_tm 20).message ≠ some "hello" ∧
    (mk_menu [⟨"opt"⟩] ⟨"Title", "", false, 8, 15, none, none, some 7⟩ 20).message
      = none := by
  refine ⟨?_, ?_, ?_⟩ <;> decide

/-- C3 (amended): for every non-empty option list and every terminal row
count r with 6 ≤ r < 65536, the options-per-page computed at construction
equals clamp(r - 6, 1, n); it equals 1 when r - 6 is less than 1 (that is,
r = 6 in this range); and for every row count whatsoever it never exceeds
n. (For r below 6 the u16 subtraction in the source wraps, so the computed
value is n rather than the 1 the original claim states; see the
counterexample.) -/
theorem C3_options_per_page_clamp (opts : List MenuOption) (props : MenuProps)
    (r : Nat) (hne : opts ≠ []) (h6 : 6 ≤ r) (hu : r < 65536) :
    (mk_menu opts props r).options_per_page = clamp (r - 6) 1 opts.length ∧
    (r - 6 < 1 → (mk_menu opts props r).options_per_page = 1) ∧
    (∀ r2 : Nat, (mk_menu opts props r2).options_per_page ≤ opts.length) := by
  have hn : 1 ≤ opts.length := List.length_pos.mpr hne
  have heq : (mk_menu opts props r).options_per_page = clamp (r - 6) 1 opts.length := by
    rw [mk_menu_opp]
    unfold compute_options_per_page
    rw [rows_minus_6_of_ge r h6 hu]
  refine ⟨heq, ?_, ?_⟩
  · intro hlt
    rw [heq]
    simp only [clamp]
    repeat' split
    all_goals omega
  · intro r2
    rw [mk_menu_opp]
    exact (@clamp_bounds (rows_minus_6 r2) 1 opts.length hn).2

/-- C3 counterexample: with two options and a five-row terminal the code
computes options_per_page = 2 (the u16 subtraction 5 - 6 wraps to 65535,
which the clamp then caps at the option count), while the claim states
that whenever r - 6 is less than 1 the result is 1. -/
theorem C3_counterexample_row5 :
    (mk_menu opts2 MenuProps.default 5).options_per_page = 2 ∧
    ((5 : Int) - 6 < 1) ∧ (2 : Nat) ≠ 1 := by
  refine ⟨?_, ?_, ?_⟩ <;> decide

/-- Witness for C3 at a concrete input: three options, twenty rows. -/
theorem C3_witness :
    (opts3 ≠ [] ∧ 6 ≤ 20 ∧ 20 < 65536) ∧
    ((mk_menu opts3 MenuProps.default 20).options_per_page =
        clamp (20 - 6) 1 opts3.length ∧
      (20 - 6 < 1 → (mk_menu opts3 MenuProps.default 20).options_per_page = 1) ∧
      (∀ r2 : Nat,
        (mk_menu opts3 MenuProps.default r2).options_per_page ≤ opts3.length)) :=
  ⟨⟨by decide, by decide, by decide⟩,
    C3_options_per_page_clamp opts3 MenuProps.default 20 (by decide)
      (by decide) (by decide)⟩

/-- C6: the page count computed at construction is
((option_count - 1) / options_per_page) + 1, which is the ceiling of
option_count / options_per_page; it covers all options, and one page
fewer would not. -/
theorem C6_page_count_ceiling (n p : Nat) (hn : 1 ≤ n) (hp : 1 ≤ p) :
    compute_page_count n p = ((n - 1) / p) + 1 ∧
    compute_page_count n p = (n + p - 1) / p ∧
    n ≤ compute_page_count n p * p ∧
    (compute_page_count n p - 1) * p < n ∧
    (∀ (opts : List MenuOption) (props : MenuProps) (r : Nat),
      (mk_menu opts props r).num_pages =
        compute_page_count opts.length (mk_menu opts props r).options_per_page) := by
  refine ⟨rfl, ?_, ?_, ?_, ?_⟩
  · unfold compute_page_count
    have hd2 : n + p - 1 = n - 1 + p := by omega
    rw [hd2, Nat.add_div_right _ hp]
  · unfold compute_page_count
    have h4 : n - 1 < (n - 1) / p * p + p := Nat.lt_div_mul_add hp
    have h6 : n ≤ (n - 1) / p * p + p := Nat.le_of_pred_lt h4
    calc n ≤ (n - 1) / p * p + p := h6
      _ = ((n - 1) / p + 1) * p := (Nat.succ_mul _ _).symm
  · unfold compute_page_count
    simp only [Nat.add_sub_cancel]
    calc (n - 1) / p * p ≤ n - 1 := Nat.div_mul_le_self _ _
      _ < n := by omega
  · intro opts props r
    rw [mk_menu_num_pages, mk_menu_opp]

/-- Witness for C6 at a concrete input: ten options, four per page. -/
theorem C6_witness :
    ((1 : Nat) ≤ 10 ∧ (1 : Nat) ≤ 4) ∧
    (compute_page_count 10 4 = ((10 - 1) / 4) + 1 ∧
      compute_page_count 10 4 = (10 + 4 - 1) / 4 ∧
      10 ≤ compute_page_count 10 4 * 4 ∧
      (compute_page_count 10 4 - 1) * 4 < 10 ∧
      (∀ (opts : List MenuOption) (props : MenuProps) (r : Nat),
        (mk_menu opts props r).num_pages =
          compute_page_count opts.length (mk_menu opts props r).options_per_page)) :=
  ⟨⟨by decide, by decide⟩, C6_page_count_ceiling 10 4 (by decide) (by decide)⟩

/-- C8: Menu::new fails exactly on the empty option list; on any non-empty
list it succeeds, resolves each unset optional color to the foreground
color, and sets the navigation state to page 0, option 0. -/
theorem C8_new_contract (opts : List MenuOption) (props : MenuProps) (r : Nat) :
    (Menu.new opts props r = none ↔ opts = []) ∧
    (opts ≠ [] →
      Menu.new opts props r = some (mk_menu opts props r) ∧
      (mk_menu opts props r).title_color = props.title_color.getD props.fg_color ∧
      (mk_menu opts props r).selected_color =
        props.selected_color.getD props.fg_color ∧
      (mk_menu opts props r).msg_color = props.msg_color.getD props.fg_color ∧
      (mk_menu opts props r).selected_page = 0 ∧
      (mk_menu opts props r).selected_option = 0) := by
  constructor
  · simp [Menu.new, List.isEmpty_iff]
  · intro hne
    refine ⟨by simp [Menu.new, List.isEmpty_iff, hne], ?_, ?_, ?_, ?_, ?_⟩
    all_goals simp [mk_menu]

/- Disjointness of the key classes of the match arms. -/

theorem isUp_false_of_isDown (k : Key) (h : k.isDown = true) :
    k.isUp = false := by
  cases k <;> simp_all [Key.isUp, Key.isDown]

theorem isUp_false_of_isLeft (k : Key) (h : k.isLeft = true) :
    k.isUp = false := by
  cases k <;> simp_all [Key.isUp, Key.isLeft]
  rcases h with rfl | rfl <;> decide

theorem isDown_false_of_isLeft (k : Key) (h : k.isLeft = true) :
    k.isDown = false := by
  cases k <;> simp_all [Key.isDown, Key.isLeft]
  rcases h with rfl | rfl <;> decide

theorem isUp_false_of_isRight (k : Key) (h : k.isRight = true) :
    k.isUp = false := by
  cases k <;> simp_all [Key.isUp, Key.isRight]
  rcases h with rfl | rfl <;> decide

theorem isDown_false_of_isRight (k : Key) (h : k.isRight = true) :
    k.isDown = false := by
  cases k <;> simp_all [Key.isDown, Key.isRight]
  rcases h with rfl | rfl <;> decide

theorem isLeft_false_of_isRight (k : Key) (h : k.isRight = true) :
    k.isLeft = false := by
  cases k <;> simp_all [Key.isLeft, Key.isRight]
  rcases h with rfl | rfl <;> decide

/- Step equations for each movement arm. -/

theorem nav_step_up_eq (m : Menu) (k : Key) (hk : k.isUp = true) :
    m.nav_step k =
      if m.selected_option ≠ m.page_start then
        { m with selected_option := m.selected_option - 1 }
      else if m.selected_page ≠ 0 then
        { m.set_page (m.selected_page - 1) with
            selected_option := (m.set_page (m.selected_page - 1)).page_end }
      else m := by
  unfold Menu.nav_step
  rw [hk]
  rfl

theorem nav_step_down_eq (m : Menu) (k : Key) (hk : k.isDown = true) :
    m.nav_step k =
      if m.selected_option < m.page_end then
        { m with selected_option := m.selected_option + 1 }
      else if m.selected_page < m.num_pages - 1 then
        m.set_page (m.selected_page + 1)
      else m := by
  unfold Menu.nav_step
  rw [isUp_false_of_isDown k hk, hk]
  rfl

theorem nav_step_left_eq (m : Menu) (k : Key) (hk : k.isLeft = true) :
    m.nav_step k =
      if m.selected_page ≠ 0 then m.set_page (m.selected_page - 1) else m := by
  unfold Menu.nav_step
  rw [isUp_false_of_isLeft k hk, isDown_false_of_isLeft k hk, hk]
  rfl

theorem nav_step_right_eq (m : Menu) (k : Key) (hk : k.isRight = true) :
    m.nav_step k =
      if m.selected_page < m.num_pages - 1 then
        m.set_page (m.selected_page + 1)
      else m := by
  unfold Menu.nav_step
  rw [isUp_false_of_isRight k hk, isDown_false_of_isRight k hk,
    isLeft_false_of_isRight k hk, hk]
  rfl

/-- Any state satisfying the invariants satisfies the transition table. -/
theorem nav_spec_of_inv (m : Menu) (hL : m.layout_inv) (hN : m.nav_inv) :
    nav_transition_spec m := by
  have hb := nav_inv_bounds m hL hN
  have hN2 := hN
  rw [nav_inv_def] at hN2
  obtain ⟨hp, hps, hpe, h1, h2⟩ := hN2
  have hL2 := hL
  rw [layout_inv_def] at hL2
  obtain ⟨hn, hopp, hle, hnp⟩ := hL2
  refine ⟨?_, ?_, ?_, ?_, ?_, ?_, ?_, ?_, ?_, ?_⟩
  · intro k hk hgt
    rw [nav_step_up_eq m k hk, if_pos (by omega)]
    exact ⟨rfl, rfl⟩
  · intro k hk heq hpos
    rw [nav_step_up_eq m k hk, if_neg (by omega), if_pos (by omega)]
    exact ⟨rfl, rfl⟩
  · intro k hk hlt
    rw [nav_step_down_eq m k hk, if_pos hlt]
    exact ⟨rfl, rfl⟩
  · intro k hk heq hlast
    rw [nav_step_down_eq m k hk, if_neg (by omega), if_pos hlast]
    exact ⟨rfl, rfl⟩
  · intro k hk hpos
    rw [nav_step_left_eq m k hk, if_pos (by omega)]
    exact ⟨rfl, rfl⟩
  · intro k hk hlast
    rw [nav_step_right_eq m k hk, if_pos hlast]
    exact ⟨rfl, rfl⟩
  · intro k hk hpage hopt
    have hzero : m.page_start = 0 := by
      rw [hps, hpage, Nat.zero_mul]
    rw [nav_step_up_eq m k hk, if_neg (by omega), if_neg (by omega)]
  · intro k hk hpage hopt
    rw [nav_step_down_eq m k hk, if_neg (by omega), if_neg (by omega)]
  · intro k hk hpage
    rw [nav_step_left_eq m k hk, if_neg (by omega)]
  · intro k hk hpage
    rw [nav_step_right_eq m k hk, if_neg (by omega)]

/-- C4: in every navigation state reachable from the freshly constructed
menu (page 0, option 0) by any sequence of key events, the selection lies
within the page bounds, the page holds at most options_per_page options,
and page_start = selected_page * options_per_page. -/
theorem C4_reachable_invariant (opts : List MenuOption) (props : MenuProps)
    (r : Nat) (ks : List Key) (hne : opts ≠ []) :
    (Menu.reach (mk_menu opts props r) ks).page_start =
      (Menu.reach (mk_menu opts props r) ks).selected_page *
        (Menu.reach (mk_menu opts props r) ks).options_per_page ∧
    (Menu.reach (mk_menu opts props r) ks).page_start ≤
      (Menu.reach (mk_menu opts props r) ks).selected_option ∧
    (Menu.reach (mk_menu opts props r) ks).selected_option ≤
      (Menu.reach (mk_menu opts props r) ks).page_end ∧
    (Menu.reach (mk_menu opts props r) ks).page_end -
        (Menu.reach (mk_menu opts props r) ks).page_start + 1 ≤
      (Menu.reach (mk_menu opts props r) ks).options_per_page := by
  obtain ⟨hL, hN⟩ := reach_inv (mk_menu opts props r) ks
    (mk_menu_layout_inv opts props r hne) (mk_menu_nav_inv opts props r hne)
  have hb := nav_inv_bounds _ hL hN
  rw [nav_inv_def] at hN
  rw [layout_inv_def] at hL
  refine ⟨hN.2.1, hN.2.2.2.1, hN.2.2.2.2, ?_⟩
  omega

/-- Witness for C4 at a concrete input: ten options, ten rows (four
options per page), after four Down presses. -/
theorem C4_witness :
    opts10 ≠ [] ∧
    ((Menu.reach (mk_menu opts10 MenuProps.default 10)
        [Key.arrowDown, Key.arrowDown, Key.arrowDown, Key.arrowDown]).page_start =
      (Menu.reach (mk_menu opts10 MenuProps.default 10)
        [Key.arrowDown, Key.arrowDown, Key.arrowDown, Key.arrowDown]).selected_page *
        (Menu.reach (mk_menu opts10 MenuProps.default 10)
        [Key.arrowDown, Key.arrowDown, Key.arrowDown, Key.arrowDown]).options_per_page ∧
    (Menu.reach (mk_menu opts10 MenuProps.default 10)
        [Key.arrowDown, Key.arrowDown, Key.arrowDown, Key.arrowDown]).page_start ≤
      (Menu.reach (mk_menu opts10 MenuProps.default 10)
        [Key.arrowDown, Key.arrowDown, Key.arrowDown, Key.arrowDown]).selected_option ∧
    (Menu.reach (mk_menu opts10 MenuProps.default 10)
        [Key.arrowDown, Key.arrowDown, Key.arrowDown, Key.arrowDown]).selected_option ≤
      (Menu.reach (mk_menu opts10 MenuProps.default 10)
        [Key.arrowDown, Key.arrowDown, Key.arrowDown, Key.arrowDown]).page_end ∧
    (Menu.reach (mk_menu opts10 MenuProps.default 10)
        [Key.arrowDown, Key.arrowDown, Key.arrowDown, Key.arrowDown]).page_end -
        (Menu.reach (mk_menu opts10 MenuProps.default 10)
        [Key.arrowDown, Key.arrowDown, Key.arrowDown, Key.arrowDown]).page_start + 1 ≤
      (Menu.reach (mk_menu opts10 MenuProps.default 10)
        [Key.arrowDown, Key.arrowDown, Key.arrowDown, Key.arrowDown]).options_per_page) :=
  ⟨by decide,
    C4_reachable_invariant opts10 MenuProps.default 10
      [Key.arrowDown, Key.arrowDown, Key.arrowDown, Key.arrowDown] (by decide)⟩

/-- C5: every reachable navigation state satisfies the full per-event
transition table, including the four boundary no-op cases. -/
theorem C5_transition_table (opts : List MenuOption) (props : MenuProps)
    (r : Nat) (ks : List Key) (hne : opts ≠ []) :
    nav_transition_spec (Menu.reach (mk_menu opts props r) ks) := by
  obtain ⟨hL, hN⟩ := reach_inv (mk_menu opts props r) ks
    (mk_menu_layout_inv opts props r hne) (mk_menu_nav_inv opts props r hne)
  exact nav_spec_of_inv _ hL hN

/-- Witness for C5 at a concrete input: ten options, ten rows, after one
Right press. -/
theorem C5_witness :
    opts10 ≠ [] ∧
    nav_transition_spec
      (Menu.reach (mk_menu opts10 MenuProps.default 10) [Key.arrowRight]) :=
  ⟨by decide,
    C5_transition_table opts10 MenuProps.default 10 [Key.arrowRight] (by decide)⟩

/- Equations for one iteration of the navigation loop. -/

theorem run_navigation_cons (m : Menu) (k : Key) (ks : List Key) :
    run_navigation m (k :: ks) =
      if k.isExitKey then (exit_ops, m, true)
      else if k.isEnter then
        if m.exit_on_action then
          (exit_ops ++ [Ev.invoke m.selected_option], m, true)
        else
          (Ev.invoke m.selected_option ::
            Ev.draw m.selected_page m.selected_option ::
              (run_navigation m ks).1,
            (run_navigation m ks).2)
      else
        (Ev.draw (m.nav_step k).selected_page
            (m.nav_step k).selected_option ::
          (run_navigation (m.nav_step k) ks).1,
          (run_navigation (m.nav_step k) ks).2) := by
  rfl

theorem run_navigation_exit (m : Menu) (k : Key) (ks : List Key)
    (hk : k.isExitKey = true) :
    run_navigation m (k :: ks) = (exit_ops, m, true) := by
  rw [run_navigation_cons, if_pos hk]

theorem run_navigation_enter_stop (m : Menu) (ks : List Key)
    (h : m.exit_on_action = true) :
    run_navigation m (Key.enter :: ks) =
      (exit_ops ++ [Ev.invoke m.selected_option], m, true) := by
  rw [run_navigation_cons]
  rw [if_neg (by decide : ¬Key.enter.isExitKey = true)]
  rw [if_pos (by decide : Key.enter.isEnter = true), if_pos h]

theorem run_navigation_enter_continue (m : Menu) (ks : List Key)
    (h : m.exit_on_action = false) :
    run_navigation m (Key.enter :: ks) =
      (Ev.invoke m.selected_option ::
        Ev.draw m.selected_page m.selected_option ::
          (run_navigation m ks).1,
        (run_navigation m ks).2) := by
  rw [run_navigation_cons]
  rw [if_neg (by decide : ¬Key.enter.isExitKey = true)]
  rw [if_pos (by decide : Key.enter.isEnter = true)]
  rw [if_neg (by simp [h])]

theorem run_navigation_nav (m : Menu) (k : Key) (ks : List Key)
    (h1 : k.isExitKey = false) (h2 : k.isEnter = false) :
    run_navigation m (k :: ks) =
      (Ev.draw (m.nav_step k).selected_page
          (m.nav_step k).selected_option ::
        (run_navigation (m.nav_step k) ks).1,
        (run_navigation (m.nav_step k) ks).2) := by
  rw [run_navigation_cons]
  rw [if_neg (by simp [h1]), if_neg (by simp [h2])]

/-- The navigation loop never changes the layout fields of the menu. -/
theorem run_navigation_layout (m : Menu) (ks : List Key) :
    (run_navigation m ks).2.1.options_per_page = m.options_per_page ∧
    (run_navigation m ks).2.1.num_pages = m.num_pages ∧
    (run_navigation m ks).2.1.options = m.options := by
  induction ks generalizing m with
  | nil => exact ⟨rfl, rfl, rfl⟩
  | cons k ks ih =>
      by_cases h1 : k.isExitKey = true
      · rw [run_navigation_exit m k ks h1]
        exact ⟨rfl, rfl, rfl⟩
      · by_cases h2 : k.isEnter = true
        · have hke : k = Key.enter := by
            cases k <;> simp_all [Key.isEnter]
          subst hke
          by_cases h3 : m.exit_on_action = true
          · rw [run_navigation_enter_stop m ks h3]
            exact ⟨rfl, rfl, rfl⟩
          · rw [run_navigation_enter_continue m ks
              (Bool.eq_false_iff.mpr h3)]
            exact ih m
        · obtain ⟨a, b, c⟩ := ih (m.nav_step k)
          rw [nav_step_opp] at a
          rw [nav_step_num_pages] at b
          rw [nav_step_options] at c
          rw [run_navigation_nav m k ks (Bool.eq_false_iff.mpr h1)
            (Bool.eq_false_iff.mpr h2)]
          exact ⟨a, b, c⟩

/-- C2 (amended): a call to show does not recompute the layout and does
not reset the navigation state; it draws the navigation state currently
stored on the menu (set at construction or left behind by a previous
session) and the layout fields of the menu are unchanged when the call
returns, whatever the terminal height at the time of the call. -/
theorem C2_show_uses_stored_state (m : Menu) (h : Nat) (ks : List Key) :
    (m.show h ks).2.1.options_per_page = m.options_per_page ∧
    (m.show h ks).2.1.num_pages = m.num_pages ∧
    (m.show h ks).2.1.options = m.options ∧
    (m.show h ks).1.get? 2 =
      some (Ev.draw m.selected_page m.selected_option) := by
  obtain ⟨a, b, c⟩ := run_navigation_layout m ks
  exact ⟨a, b, c, rfl⟩

/-- C2 counterexample: after the first session above ends on page 1,
option 1, a second show call on a twenty-row terminal draws page 1,
option 1 (not page 0, option 0 as the claim states), and its
options-per-page is still the 1 computed at construction, not the
clamp(20 - 6, 1, 3) = 3 a fresh layout computation against the current
terminal size would give. -/
theorem C2_counterexample_stale_session :
    session1_menu.selected_page = 1 ∧
    session1_menu.selected_option = 1 ∧
    (Menu.show session1_menu 20 []).1.get? 2 = some (Ev.draw 1 1) ∧
    (Menu.show session1_menu 20 []).1.get? 2 ≠ some (Ev.draw 0 0) ∧
    (Menu.show session1_menu 20 []).2.1.options_per_page = 1 ∧
    clamp (20 - 6) 1 opts3.length = 3 ∧ (1 : Nat) ≠ 3 := by
  refine ⟨?_, ?_, ?_, ?_, ?_, ?_, ?_⟩ <;> decide

/-- C7: pressing Enter invokes the action of the selected option exactly
once; with exit_on_action the loop then terminates, without it the loop
continues, and two Enter presses on the same option invoke that action
twice with the loop still active afterwards. -/
theorem C7_confirm_invokes_action (m : Menu) (ks : List Key) :
    (m.exit_on_action = true →
      run_navigation m (Key.enter :: ks) =
        (exit_ops ++ [Ev.invoke m.selected_option], m, true) ∧
      invokes (run_navigation m (Key.enter :: ks)).1 = [m.selected_option]) ∧
    (m.exit_on_action = false →
      invokes (run_navigation m (Key.enter :: ks)).1 =
        m.selected_option :: invokes (run_navigation m ks).1 ∧
      (run_navigation m (Key.enter :: ks)).2 = (run_navigation m ks).2) ∧
    (m.exit_on_action = false →
      invokes (run_navigation m [Key.enter, Key.enter]).1 =
        [m.selected_option, m.selected_option] ∧
      (run_navigation m [Key.enter, Key.enter]).2.2 = false) := by
  refine ⟨?_, ?_, ?_⟩
  · intro h
    have he := run_navigation_enter_stop m ks h
    refine ⟨he, ?_⟩
    rw [he]
    simp [invokes, exit_ops]
  · intro h
    have he := run_navigation_enter_continue m ks h
    rw [he]
    exact ⟨by simp [invokes], rfl⟩
  · intro h
    have h1 := run_navigation_enter_continue m [Key.enter] h
    have h0 := run_navigation_enter_continue m ([] : List Key) h
    rw [show ([Key.enter, Key.enter] : List Key) =
      Key.enter :: [Key.enter] from rfl, h1, h0]
    exact ⟨by simp [invokes, run_navigation], by simp [run_navigation]⟩

/-- Witness for C7 at a concrete input: a menu built with exit_on_action
false, Enter pressed twice. -/
theorem C7_witness :
    invokes (run_navigation (mk_menu opts3 props_tm 20)
        [Key.enter, Key.enter]).1 =
      [(mk_menu opts3 props_tm 20).selected_option,
        (mk_menu opts3 props_tm 20).selected_option] ∧
    (run_navigation (mk_menu opts3 props_tm 20) [Key.enter, Key.enter]).2.2 =
      false :=
  (C7_confirm_invokes_action (mk_menu opts3 props_tm 20) []).2.2 (by decide)

/-- C9: an Exit key always terminates the loop, invoking no action and
restoring the cursor (showCursor is emitted) before control returns; the
confirm-with-exit-on-action path also restores the cursor; and no other
single event terminates the loop. -/
theorem C9_exit_terminates (m : Menu) (k : Key) (ks : List Key) :
    (k.isExitKey = true →
      run_navigation m (k :: ks) = (exit_ops, m, true) ∧
      invokes (run_navigation m (k :: ks)).1 = [] ∧
      Ev.showCursor ∈ (run_navigation m (k :: ks)).1) ∧
    (m.exit_on_action = true →
      Ev.showCursor ∈ (run_navigation m (Key.enter :: ks)).1) ∧
    ((run_navigation m [k]).2.2 = true →
      k.isExitKey = true ∨ (k.isEnter = true ∧ m.exit_on_action = true)) := by
  refine ⟨?_, ?_, ?_⟩
  · intro hk
    have he := run_navigation_exit m k ks hk
    rw [he]
    exact ⟨rfl, by simp [invokes, exit_ops], by simp [exit_ops]⟩
  · intro h
    rw [run_navigation_enter_stop m ks h]
    simp [exit_ops]
  · intro ht
    by_cases h1 : k.isExitKey = true
    · exact Or.inl h1
    · by_cases h2 : k.isEnter = true
      · have hke : k = Key.enter := by
          cases k <;> simp_all [Key.isEnter]
        subst hke
        by_cases h3 : m.exit_on_action = true
        · exact Or.inr ⟨rfl, h3⟩
        · rw [run_navigation_enter_continue m []
            (Bool.eq_false_iff.mpr h3)] at ht
          simp [run_navigation] at ht
      · rw [run_navigation_nav m k [] (Bool.eq_false_iff.mpr h1)
          (Bool.eq_false_iff.mpr h2)] at ht
        simp [run_navigation] at ht

/-- Witness for C9 at a concrete input: Escape pressed on a fresh menu. -/
theorem C9_witness :
    run_navigation (mk_menu opts3 MenuProps.default 20) [Key.escape] =
      (exit_ops, mk_menu opts3 MenuProps.default 20, true) ∧
    invokes (run_navigation (mk_menu opts3 MenuProps.default 20)
        [Key.escape]).1 = [] ∧
    Ev.showCursor ∈
      (run_navigation (mk_menu opts3 MenuProps.default 20) [Key.escape]).1 :=
  (C9_exit_terminates (mk_menu opts3 MenuProps.default 20) Key.escape []).1
    (by decide)

/-- C10: with exit_on_action set, an Enter press emits exactly the exit
cleanup (clear screen, show cursor, flush) followed by the invocation of
the selected option, and nothing after it: the cleanup precedes the
action and no redraw follows the invocation. -/
theorem C10_cleanup_precedes_action (m : Menu) (ks : List Key)
    (h : m.exit_on_action = true) :
    (run_navigation m (Key.enter :: ks)).1 =
      [Ev.clearScreen, Ev.showCursor, Ev.flush,
        Ev.invoke m.selected_option] ∧
    (run_navigation m (Key.enter :: ks)).2.2 = true ∧
    (run_navigation m (Key.enter :: ks)).1.drop 4 = [] ∧
    ∀ e ∈ (run_navigation m (Key.enter :: ks)).1.drop 3,
      ∀ p o, e ≠ Ev.draw p o := by
  have he := run_navigation_enter_stop m ks h
  rw [he]
  refine ⟨rfl, rfl, rfl, ?_⟩
  simp [exit_ops]

/-- Witness for C10 at a concrete input: a menu built with exit_on_action
true (the default configuration), Enter pressed. -/
theorem C10_witness :
    (run_navigation (mk_menu opts3 MenuProps.default 20) [Key.enter]).1 =
      [Ev.clearScreen, Ev.showCursor, Ev.flush,
        Ev.invoke (mk_menu opts3 MenuProps.default 20).selected_option] ∧
    (run_navigation (mk_menu opts3 MenuProps.default 20) [Key.enter]).2.2 =
      true ∧
    (run_navigation (mk_menu opts3 MenuProps.default 20) [Key.enter]).1.drop 4
      = [] ∧
    ∀ e ∈ (run_navigation (mk_menu opts3 MenuProps.default 20)
        [Key.enter]).1.drop 3,
      ∀ p o, e ≠ Ev.draw p o :=
  C10_cleanup_precedes_action (mk_menu opts3 MenuProps.default 20) []
    (by decide)

/-- Witness for C8 at a concrete input. -/
theorem C8_witness :
    (Menu.new opts3 props_tm 20 = some (mk_menu opts3 props_tm 20) ∧
      (mk_menu opts3 props_tm 20).title_color =
        props_tm.title_color.getD props_tm.fg_color ∧
      (mk_menu opts3 props_tm 20).selected_color =
        props_tm.selected_color.getD props_tm.fg_color ∧
      (mk_menu opts3 props_tm 20).msg_color =
        props_tm.msg_color.getD props_tm.fg_color ∧
      (mk_menu opts3 props_tm 20).selected_page = 0 ∧
      (mk_menu opts3 props_tm 20).selected_option = 0) ∧
    Menu.new [] props_tm 20 = none :=
  ⟨(C8_new_contract opts3 props_tm 20).2 (by decide),
    (C8_new_contract [] props_tm 20).1.mpr rfl⟩

end ConsoleMenu
